import Mathlib

/-!
Shallow embedding of the Melodify API server (src/server.js), an Express
routing/validation layer over a remote Supabase backend.  Each HTTP handler
is embedded as a pure Lean function; remote-service calls are either given
abstract outcomes (a `QueryResult` argument) or, where a claim needs the
honest backend semantics, computed from an explicit database state `DB`
following the external client contract described in the spec.
-/

namespace Melodify

/-- A row of the `songs_metadata` table (fields from the POST /songs handler,
src/server.js lines 126-144). -/
structure Song where
  id : Nat
  title : String
  artist : String
  album : Option String
  genre : Option String
  audio_url : String
  cover_url : String
  reel_audio_url : Option String
  lyrics : Option String
deriving DecidableEq

/-- An error value returned by the remote Supabase client: a message and a
Postgrest code (the toggle-like handler inspects code "PGRST116"). -/
structure SupabaseError where
  message : String
  code : String
deriving DecidableEq

/-- Outcome of a remote call: data or an error, mirroring the
destructured pattern in every handler. -/
inductive QueryResult (α : Type) where
  | ok (data : α)
  | err (e : SupabaseError)
deriving DecidableEq

/-- A user resolved by the identity provider. -/
structure User where
  id : String
  email : String
deriving DecidableEq

/-- A session object returned by sign-in (opaque token). -/
structure Session where
  access_token : String
deriving DecidableEq

/-- A row of the `playlists` table. -/
structure Playlist where
  id : Nat
  name : String
  user_id : String
deriving DecidableEq

/-- A row of the GET /me/likes join: like creation time with the song. -/
structure LikeEntry where
  created_at : String
  song : Song
deriving DecidableEq

/-- A row of the GET /me/playlists nested select: the playlist with its songs. -/
structure PlaylistEntry where
  id : Nat
  name : String
  created_at : String
  songs : List Song
deriving DecidableEq

/-- A row of the `playlist_songs` join table; the request body's song_id
may be absent (the handler does not validate it). -/
structure PlaylistSong where
  id : Nat
  playlist_id : Nat
  song_id : Option Nat
deriving DecidableEq

/-- JSON response bodies produced by the handlers. -/
inductive Body where
  | errMsg (msg : String)
  | okMsg (msg : String)
  | songsList (songs : List Song)
  | songCreated (msg : String) (song : Song)
  | uploadUrl (key : String) (url : String)
  | countVal (count : Option Nat)
  | toggleOk (msg : String) (user : String) (song : String) (liked : Bool) (likes_count : Nat)
  | signupOk (msg : String) (user : Option User)
  | loginOk (msg : String) (session : Option Session) (user : Option User)
  | playlistOk (msg : String) (playlist : Playlist)
  | likesList (likes : List LikeEntry)
  | playlistsList (playlists : List PlaylistEntry)
  | entryOk (msg : String) (entry : PlaylistSong)
deriving DecidableEq

/-- An HTTP response: status code and JSON body. -/
structure HttpResponse where
  status : Nat
  body : Body
deriving DecidableEq

/-- Backend database state relevant to the embedded handlers: the
`songs_metadata` table (with the id sequence) and the `liked_songs` table.
The `liked_songs` table is a finite set of (user_id, song_id) pairs,
matching the spec's composite-uniqueness invariant for Like rows. -/
structure DB where
  songs : List Song
  nextSongId : Nat
  likes : Finset (String × Nat)
deriving DecidableEq

/-- JS truthiness test for a possibly absent string value: `undefined` and
the empty string are falsy (the `!field` checks in the handlers). -/
def falsy (v : Option String) : Bool :=
  match v with
  | none => true
  | some s => s == ""

/-- First-occurrence replacement on character lists (JS `String.replace`
with a string pattern replaces only the first occurrence). -/
def replaceFirstAux : List Char → List Char → List Char
  | [], _ => []
  | c :: rest, pat =>
    if pat.isPrefixOf (c :: rest) then (c :: rest).drop pat.length
    else c :: replaceFirstAux rest pat

/-- First-occurrence string replacement by the empty string, as in
`header.replace("Bearer ", "")`. -/
def replaceFirst (s pat : String) : String :=
  String.mk (replaceFirstAux s.toList pat.toList)

/-- Token extraction from the Authorization header:
`req.headers.authorization?.replace("Bearer ", "")` (src/server.js line 204). -/
def tokenOf (authHeader : Option String) : Option String :=
  authHeader.map (fun h => replaceFirst h "Bearer ")

/-- Result of the identity provider's get-user-by-token call: an error, or
data whose `user` field may be null. -/
inductive GetUserRes where
  | err (msg : String)
  | ok (user : Option User)
deriving DecidableEq

/-- Outcome of the authentication middleware: halt with a response, or
proceed to the wrapped handler with the resolved user. -/
inductive AuthStep where
  | halt (resp : HttpResponse)
  | next (user : User)
deriving DecidableEq

/-- The `authenticateUser` middleware (src/server.js lines 202-215).  The
returned Bool records whether the identity provider (`supabase.auth.getUser`)
was called. -/
def authenticateUser (authHeader : Option String) (getUser : String → GetUserRes) :
    AuthStep × Bool :=
  let token := tokenOf authHeader
  if falsy token then (.halt ⟨401, .errMsg "Missing auth token"⟩, false)
  else
    match getUser (token.getD "") with
    | .err _ => (.halt ⟨401, .errMsg "Invalid token"⟩, true)
    | .ok none => (.halt ⟨401, .errMsg "Invalid token"⟩, true)
    | .ok (some u) => (.next u, true)

/-- Honest semantics of `.single()` on `songs_metadata` filtered by id.
Modelled from the spec's external table-select contract: no matching row
yields a Postgrest error with code "PGRST116". -/
def singleSong (db : DB) (songId : Nat) : QueryResult Song :=
  match db.songs.find? (fun x => x.id == songId) with
  | some s => .ok s
  | none => .err ⟨"JSON object requested, multiple (or no) rows returned", "PGRST116"⟩

/-- Honest semantics of `.single()` on `liked_songs` filtered by
(user_id, song_id).  Modelled from the spec's external table-select
contract: no matching row yields error code "PGRST116". -/
def singleLike (db : DB) (userId : String) (songId : Nat) : QueryResult (String × Nat) :=
  if (userId, songId) ∈ db.likes then .ok (userId, songId)
  else .err ⟨"JSON object requested, multiple (or no) rows returned", "PGRST116"⟩

/-- Exact count of like rows for a song (the head-count query in the
toggle-like and likes-count handlers). -/
def countLikes (db : DB) (songId : Nat) : Nat :=
  (db.likes.filter (fun p => p.2 = songId)).card

/-- The POST /songs/:songId/toggle-like handler body (src/server.js lines
257-318), with the two `.single()` query outcomes abstracted as arguments.
Returns the response together with the updated database state. -/
def toggleLikeCore (userId : String) (songId : Nat)
    (songQ : QueryResult Song) (likeQ : QueryResult (String × Nat)) (db : DB) :
    HttpResponse × DB :=
  match songQ with
  | .err _ => (⟨404, .errMsg "Song not found"⟩, db)
  | .ok songData =>
    match likeQ with
    | .err e =>
      if e.code ≠ "PGRST116" then (⟨500, .errMsg e.message⟩, db)
      else
        let db1 : DB := { db with likes := insert (userId, songId) db.likes }
        (⟨200, .toggleOk "Toggle like success" userId songData.title true
          (countLikes db1 songId)⟩, db1)
    | .ok _ =>
      let db1 : DB := { db with likes := db.likes.erase (userId, songId) }
      (⟨200, .toggleOk "Toggle like success" userId songData.title false
        (countLikes db1 songId)⟩, db1)

/-- The toggle-like handler run against the honest backend semantics. -/
def toggleLikeHandler (userId : String) (songId : Nat) (db : DB) : HttpResponse × DB :=
  toggleLikeCore userId songId (singleSong db songId) (singleLike db userId songId) db

/-- The GET /songs/:songId/likes-count handler (src/server.js lines
321-336), with the head-count query outcome abstracted; the count in the
data may be null. -/
def likesCountHandler (cq : QueryResult (Option Nat)) : HttpResponse :=
  match cq with
  | .err e => ⟨400, .errMsg e.message⟩
  | .ok c => ⟨200, .countVal c⟩

/-- The GET /me/likes handler (src/server.js lines 340-353), with the
join-select outcome abstracted. -/
def meLikesHandler (res : QueryResult (List LikeEntry)) : HttpResponse :=
  match res with
  | .err e => ⟨400, .errMsg e.message⟩
  | .ok d => ⟨200, .likesList d⟩

/-- The GET /me/playlists handler (src/server.js lines 390-411), with the
nested-select outcome abstracted. -/
def mePlaylistsHandler (res : QueryResult (List PlaylistEntry)) : HttpResponse :=
  match res with
  | .err e => ⟨400, .errMsg e.message⟩
  | .ok d => ⟨200, .playlistsList d⟩

/-- The GET /songs handler (src/server.js lines 32-48), with the
select-all-ordered outcome abstracted. -/
def getSongsHandler (res : QueryResult (List Song)) : HttpResponse :=
  match res with
  | .err e => ⟨500, .errMsg e.message⟩
  | .ok data => ⟨200, .songsList data⟩

/-- Modelled from the spec: the external select with descending-id ordering
returns the full songs table sorted by id descending (the `order` clause of
the GET /songs query is executed by the remote store). -/
def orderByIdDesc (songs : List Song) : List Song :=
  List.insertionSort (fun a b => b.id ≤ a.id) songs

/-- The GET /songs handler run against the honest backend semantics. -/
def getSongsFromDB (db : DB) : HttpResponse :=
  getSongsHandler (.ok (orderByIdDesc db.songs))

/-- Node's `path.extname`: the suffix of the name from its last dot,
empty when there is no dot or the only dot starts the name. -/
def extname (s : String) : String :=
  let cs := s.toList
  let t := cs.reverse.takeWhile (fun c => c != '.')
  if t.length = cs.length then ""
  else if t.length + 1 = cs.length then ""
  else String.mk (cs.drop (cs.length - t.length - 1))

/-- A file received by multer (origin name and declared content type). -/
structure UploadedFile where
  originalname : String
  mimetype : String
deriving DecidableEq

/-- Outcome of an upload handler: the response, whether the storage
service was called, and the storage key used if so. -/
structure UploadResult where
  resp : HttpResponse
  storageCalled : Bool
  keyUsed : Option String
deriving DecidableEq

/-- Generic single-file upload handler (src/server.js lines 52-73, 76-96,
102-123): `tag` is the filename stem, `missingMsg` the 400 message,
`mkBody` builds the success body from the public URL; `now` is
`Date.now()`, `uploadErr` the storage-upload outcome and `publicUrl` the
storage public-URL map. -/
def uploadHandler (tag missingMsg : String) (mkBody : String → Body)
    (file : Option UploadedFile) (now : Nat)
    (uploadErr : Option SupabaseError) (publicUrl : String → String) : UploadResult :=
  match file with
  | none => ⟨⟨400, .errMsg missingMsg⟩, false, none⟩
  | some f =>
    let fileName := tag ++ "_" ++ toString now ++ extname f.originalname
    match uploadErr with
    | some e => ⟨⟨500, .errMsg e.message⟩, true, some fileName⟩
    | none => ⟨⟨200, mkBody (publicUrl fileName)⟩, true, some fileName⟩

/-- POST /upload/audio: field `audio`, stem `song`, bucket `songs`. -/
def uploadAudio : Option UploadedFile → Nat → Option SupabaseError → (String → String) →
    UploadResult :=
  uploadHandler "song" "No audio file uploaded" (fun u => .uploadUrl "audio_url" u)

/-- POST /upload/reel_audio: field `audio`, stem `song`, bucket `reel_audio`. -/
def uploadReelAudio : Option UploadedFile → Nat → Option SupabaseError → (String → String) →
    UploadResult :=
  uploadHandler "song" "No audio file uploaded" (fun u => .uploadUrl "audio_url" u)

/-- POST /upload/cover: field `cover`, stem `cover`, bucket `covers`. -/
def uploadCover : Option UploadedFile → Nat → Option SupabaseError → (String → String) →
    UploadResult :=
  uploadHandler "cover" "No cover file uploaded" (fun u => .uploadUrl "cover_url" u)

/-- Request body of POST /songs: every field may be absent. -/
structure SongBody where
  title : Option String
  artist : Option String
  album : Option String
  genre : Option String
  audio_url : Option String
  cover_url : Option String
  reel_audio_url : Option String
  lyrics : Option String
deriving DecidableEq

/-- Outcome of a handler that may write to the database: response, updated
state, and whether a remote call was made. -/
structure HandlerOut where
  resp : HttpResponse
  db : DB
  remoteCalled : Bool
deriving DecidableEq

/-- The POST /songs handler (src/server.js lines 126-144): truthiness
validation of the four required fields, then an insert returning the row
with its generated id; `insertErr` abstracts a remote insert failure. -/
def createSong (b : SongBody) (insertErr : Option SupabaseError) (db : DB) : HandlerOut :=
  if falsy b.title || falsy b.artist || falsy b.audio_url || falsy b.cover_url then
    ⟨⟨400, .errMsg "Title, Artist, audio_url, and cover_url are required"⟩, db, false⟩
  else
    match insertErr with
    | some e => ⟨⟨500, .errMsg e.message⟩, db, true⟩
    | none =>
      let song : Song := ⟨db.nextSongId, b.title.getD "", b.artist.getD "", b.album, b.genre,
        b.audio_url.getD "", b.cover_url.getD "", b.reel_audio_url, b.lyrics⟩
      ⟨⟨201, .songCreated "Song uploaded successfully" song⟩,
        { db with songs := db.songs ++ [song], nextSongId := db.nextSongId + 1 }, true⟩

set_option linter.unusedVariables false in
/-- The POST /auth/signup handler (src/server.js lines 149-165); the Bool
records whether the identity provider was called.  The username is passed
through to the provider as profile metadata and plays no role in the
handler's own logic. -/
def signupHandler (email password username : Option String)
    (signUpRes : QueryResult (Option User)) : HttpResponse × Bool :=
  if falsy email || falsy password then (⟨400, .errMsg "Email & password required"⟩, false)
  else
    match signUpRes with
    | .err e => (⟨400, .errMsg e.message⟩, true)
    | .ok u => (⟨200, .signupOk "Account created" u⟩, true)

/-- The POST /auth/login handler (src/server.js lines 185-197); the Bool
records whether the identity provider was called. -/
def loginHandler (email password : Option String)
    (res : QueryResult (Option Session × Option User)) : HttpResponse × Bool :=
  if falsy email || falsy password then (⟨400, .errMsg "Email & password required"⟩, false)
  else
    match res with
    | .err e => (⟨400, .errMsg e.message⟩, true)
    | .ok su => (⟨200, .loginOk "Login successful" su.1 su.2⟩, true)

/-- The POST /playlists handler (src/server.js lines 356-371); the Bool
records whether the remote insert was called. -/
def createPlaylist (name : Option String) (res : QueryResult Playlist) :
    HttpResponse × Bool :=
  if falsy name then (⟨400, .errMsg "Playlist name required"⟩, false)
  else
    match res with
    | .err e => (⟨400, .errMsg e.message⟩, true)
    | .ok p => (⟨200, .playlistOk "Playlist created" p⟩, true)

/-- The POST /auth/resend-verification handler (src/server.js lines
168-181); the Bool records whether the identity provider was called. -/
def resendVerificationHandler (email : Option String) (res : Option SupabaseError) :
    HttpResponse × Bool :=
  if falsy email then (⟨400, .errMsg "Email is required"⟩, false)
  else
    match res with
    | some e => (⟨400, .errMsg e.message⟩, true)
    | none => (⟨200, .okMsg ("Verification email resent to " ++ email.getD "")⟩, true)

/-- The POST /playlists/:id/songs handler (src/server.js lines 373-388):
no validation of ownership or song existence; the insert outcome is
abstracted. -/
def addPlaylistSong (res : QueryResult PlaylistSong) : HttpResponse :=
  match res with
  | .err e => ⟨400, .errMsg e.message⟩
  | .ok entry => ⟨200, .entryOk "Song added to playlist" entry⟩

/-- The POST /auth/logout handler (src/server.js lines 225-242), which
re-extracts the token from the same Authorization header and has its own
missing-token check before calling global sign-out. -/
def logoutHandler (authHeader : Option String) (signOutErr : Option SupabaseError) :
    HttpResponse :=
  if falsy (tokenOf authHeader) then ⟨400, .errMsg "Missing auth token"⟩
  else
    match signOutErr with
    | some e => ⟨500, .errMsg e.message⟩
    | none => ⟨200, .okMsg "Logged out successfully"⟩

/-! ## Helper lemmas about the toggle-like workflow -/

/-- When the song is found and the user already likes it, one toggle
deletes the like row and reports liked = false. -/
lemma toggleLikeHandler_mem (u : String) (s : Nat) (db : DB) (song : Song)
    (hs : db.songs.find? (fun x => x.id == s) = some song)
    (hm : (u, s) ∈ db.likes) :
    toggleLikeHandler u s db =
      (⟨200, .toggleOk "Toggle like success" u song.title false
        (countLikes ⟨db.songs, db.nextSongId, db.likes.erase (u, s)⟩ s)⟩,
       ⟨db.songs, db.nextSongId, db.likes.erase (u, s)⟩) := by
  simp [toggleLikeHandler, toggleLikeCore, singleSong, singleLike, hs, hm]

/-- When the song is found and the user does not yet like it, one toggle
inserts the like row and reports liked = true. -/
lemma toggleLikeHandler_not_mem (u : String) (s : Nat) (db : DB) (song : Song)
    (hs : db.songs.find? (fun x => x.id == s) = some song)
    (hm : (u, s) ∉ db.likes) :
    toggleLikeHandler u s db =
      (⟨200, .toggleOk "Toggle like success" u song.title true
        (countLikes ⟨db.songs, db.nextSongId, insert (u, s) db.likes⟩ s)⟩,
       ⟨db.songs, db.nextSongId, insert (u, s) db.likes⟩) := by
  simp [toggleLikeHandler, toggleLikeCore, singleSong, singleLike, hs, hm]

/-- C1: Toggle-like is an involution: for every user and every existing
song, two consecutive toggle-like calls restore the backing like-row state
to its prior state, and the second call reports the liked flag and
likes_count that held before the first call. -/
theorem c1_toggle_like_involution (u : String) (s : Nat) (db : DB) (song : Song)
    (hs : db.songs.find? (fun x => x.id == s) = some song) :
    (toggleLikeHandler u s (toggleLikeHandler u s db).2).2 = db ∧
    (toggleLikeHandler u s (toggleLikeHandler u s db).2).1 =
      ⟨200, .toggleOk "Toggle like success" u song.title
        (decide ((u, s) ∈ db.likes)) (countLikes db s)⟩ := by
  by_cases hm : (u, s) ∈ db.likes
  · rw [toggleLikeHandler_mem u s db song hs hm]
    have hm2 : (u, s) ∉ (db.likes.erase (u, s)) := Finset.not_mem_erase _ _
    rw [toggleLikeHandler_not_mem u s ⟨db.songs, db.nextSongId, db.likes.erase (u, s)⟩ song hs hm2]
    have hins : insert (u, s) (db.likes.erase (u, s)) = db.likes := Finset.insert_erase hm
    simp [hins, hm, countLikes]
  · rw [toggleLikeHandler_not_mem u s db song hs hm]
    have hm2 : (u, s) ∈ insert (u, s) db.likes := Finset.mem_insert_self _ _
    rw [toggleLikeHandler_mem u s ⟨db.songs, db.nextSongId, insert (u, s) db.likes⟩ song hs hm2]
    have hdel : (insert (u, s) db.likes).erase (u, s) = db.likes := Finset.erase_insert hm
    simp [hdel, hm, countLikes]

/-- Witness for C1 at a concrete database: one song with id 7 and no likes. -/
theorem c1_witness :
    (toggleLikeHandler "u1" 7
        (toggleLikeHandler "u1" 7 ⟨[⟨7, "t", "a", none, none, "au", "cu", none, none⟩], 8, ∅⟩).2).2
      = ⟨[⟨7, "t", "a", none, none, "au", "cu", none, none⟩], 8, ∅⟩ ∧
    (toggleLikeHandler "u1" 7
        (toggleLikeHandler "u1" 7 ⟨[⟨7, "t", "a", none, none, "au", "cu", none, none⟩], 8, ∅⟩).2).1
      = ⟨200, .toggleOk "Toggle like success" "u1" "t"
          (decide (("u1", 7) ∈ (∅ : Finset (String × Nat))))
          (countLikes ⟨[⟨7, "t", "a", none, none, "au", "cu", none, none⟩], 8, ∅⟩ 7)⟩ :=
  c1_toggle_like_involution "u1" 7 ⟨[⟨7, "t", "a", none, none, "au", "cu", none, none⟩], 8, ∅⟩
    ⟨7, "t", "a", none, none, "au", "cu", none, none⟩ (by decide)

/-- C4: when no song row with the given id exists, the toggle-like handler
responds 404 with error "Song not found" and leaves the database (in
particular the like table) unchanged. -/
theorem c4_toggle_like_song_not_found (u : String) (s : Nat) (db : DB)
    (hs : db.songs.find? (fun x => x.id == s) = none) :
    toggleLikeHandler u s db = (⟨404, .errMsg "Song not found"⟩, db) := by
  simp [toggleLikeHandler, toggleLikeCore, singleSong, hs]

/-- Witness for C4 at a concrete database with no song 999. -/
theorem c4_witness :
    toggleLikeHandler "u1" 999 ⟨[⟨7, "t", "a", none, none, "au", "cu", none, none⟩], 8, ∅⟩
      = (⟨404, .errMsg "Song not found"⟩,
         ⟨[⟨7, "t", "a", none, none, "au", "cu", none, none⟩], 8, ∅⟩) :=
  c4_toggle_like_song_not_found "u1" 999
    ⟨[⟨7, "t", "a", none, none, "au", "cu", none, none⟩], 8, ∅⟩ (by decide)

/-- C6: in the toggle-like workflow, a like-query error with code PGRST116
(no row found) is treated as the no-existing-like case and the workflow
inserts a like; any like-query error with a different code yields a 500
response carrying the remote message, with the like table unchanged. -/
theorem c6_toggle_like_query_error (u : String) (s : Nat) (song : Song)
    (e : SupabaseError) (db : DB) :
    (e.code = "PGRST116" →
      toggleLikeCore u s (.ok song) (.err e) db =
        (⟨200, .toggleOk "Toggle like success" u song.title true
          (countLikes ⟨db.songs, db.nextSongId, insert (u, s) db.likes⟩ s)⟩,
         ⟨db.songs, db.nextSongId, insert (u, s) db.likes⟩)) ∧
    (e.code ≠ "PGRST116" →
      toggleLikeCore u s (.ok song) (.err e) db = (⟨500, .errMsg e.message⟩, db)) := by
  constructor
  · intro hc
    simp [toggleLikeCore, hc]
  · intro hc
    simp [toggleLikeCore, hc]

/-- Witness for C6: both branches at concrete errors and an empty database. -/
theorem c6_witness :
    (toggleLikeCore "u1" 7 (.ok ⟨7, "t", "a", none, none, "au", "cu", none, none⟩)
        (.err ⟨"no rows", "PGRST116"⟩) ⟨[], 0, ∅⟩ =
      (⟨200, .toggleOk "Toggle like success" "u1" "t" true
        (countLikes ⟨([] : List Song), 0, insert ("u1", 7) (∅ : Finset (String × Nat))⟩ 7)⟩,
       ⟨([] : List Song), 0, insert ("u1", 7) (∅ : Finset (String × Nat))⟩)) ∧
    (toggleLikeCore "u1" 7 (.ok ⟨7, "t", "a", none, none, "au", "cu", none, none⟩)
        (.err ⟨"connection reset", "08006"⟩) ⟨[], 0, ∅⟩ =
      (⟨500, .errMsg "connection reset"⟩, ⟨([] : List Song), 0, ∅⟩)) :=
  ⟨(c6_toggle_like_query_error "u1" 7 ⟨7, "t", "a", none, none, "au", "cu", none, none⟩
      ⟨"no rows", "PGRST116"⟩ ⟨[], 0, ∅⟩).1 (by decide),
   (c6_toggle_like_query_error "u1" 7 ⟨7, "t", "a", none, none, "au", "cu", none, none⟩
      ⟨"connection reset", "08006"⟩ ⟨[], 0, ∅⟩).2 (by decide)⟩

/-- C3: the authentication middleware rejects a request with no
extractable bearer token (in particular a missing Authorization header)
with 401 "Missing auth token" without calling the identity provider, and
rejects a token the provider errors on or resolves to no user with 401
"Invalid token", never invoking the wrapped handler. -/
theorem c3_auth_middleware (h : Option String) (g : String → GetUserRes) :
    (h = none → authenticateUser h g = (.halt ⟨401, .errMsg "Missing auth token"⟩, false)) ∧
    (falsy (tokenOf h) = true →
      authenticateUser h g = (.halt ⟨401, .errMsg "Missing auth token"⟩, false)) ∧
    (falsy (tokenOf h) = false → ∀ m : String, g ((tokenOf h).getD "") = .err m →
      authenticateUser h g = (.halt ⟨401, .errMsg "Invalid token"⟩, true)) ∧
    (falsy (tokenOf h) = false → g ((tokenOf h).getD "") = .ok none →
      authenticateUser h g = (.halt ⟨401, .errMsg "Invalid token"⟩, true)) := by
  refine ⟨?_, ?_, ?_, ?_⟩
  · intro hn
    subst hn
    simp [authenticateUser, tokenOf, falsy]
  · intro hf
    simp [authenticateUser, hf]
  · intro hf m hg
    simp [authenticateUser, hf, hg]
  · intro hf hg
    simp [authenticateUser, hf, hg]

/-- Witness for C3: absent header, and a concrete rejected token. -/
theorem c3_witness :
    (authenticateUser none (fun _ => .ok (some ⟨"uid", "e@x"⟩)) =
      (.halt ⟨401, .errMsg "Missing auth token"⟩, false)) ∧
    (authenticateUser (some "Bearer tok") (fun _ => .err "bad jwt") =
      (.halt ⟨401, .errMsg "Invalid token"⟩, true)) :=
  ⟨(c3_auth_middleware none (fun _ => .ok (some ⟨"uid", "e@x"⟩))).1 rfl,
   (c3_auth_middleware (some "Bearer tok") (fun _ => .err "bad jwt")).2.2.1
     (by decide) "bad jwt" rfl⟩

/-- C9: the 400 missing-token branch of the logout handler is unreachable:
whenever the middleware proceeds, the token recomputed by the handler from
the same header is truthy, so the handler never returns
400 "Missing auth token". -/
theorem c9_logout_missing_token_unreachable (h : Option String) (g : String → GetUserRes)
    (u : User) (b : Bool) (hn : authenticateUser h g = (.next u, b)) :
    falsy (tokenOf h) = false ∧
    ∀ so : Option SupabaseError,
      logoutHandler h so ≠ ⟨400, .errMsg "Missing auth token"⟩ := by
  have hf : falsy (tokenOf h) = false := by
    by_cases hc : falsy (tokenOf h) = true
    · rw [(c3_auth_middleware h g).2.1 hc] at hn
      simp at hn
    · simpa using hc
  refine ⟨hf, ?_⟩
  intro so
  cases so <;> simp [logoutHandler, hf]

/-- Witness for C9 at a concrete header and identity provider. -/
theorem c9_witness :
    falsy (tokenOf (some "Bearer tok")) = false ∧
    ∀ so : Option SupabaseError,
      logoutHandler (some "Bearer tok") so ≠ ⟨400, .errMsg "Missing auth token"⟩ :=
  c9_logout_missing_token_unreachable (some "Bearer tok")
    (fun _ => .ok (some ⟨"uid", "e@x"⟩)) ⟨"uid", "e@x"⟩ true (by decide)

/-- C2 counterexample: the likes-count handler converts a remote failure
to status 400, not 500, refuting the claim that every handler maps a
remote-service failure to an HTTP 500 InternalError response. -/
theorem c2_counterexample :
    likesCountHandler (.err ⟨"boom", "08006"⟩) = ⟨400, .errMsg "boom"⟩ ∧
    (likesCountHandler (.err ⟨"boom", "08006"⟩)).status ≠ 500 := by
  constructor <;> decide

/-- C2 amended: remote-service failures are not uniformly mapped to 500.
On each error-checked remote call the handler returns a JSON error body,
with a handler-specific status: GET /songs, the three upload handlers,
POST /songs and POST /auth/logout return 500 with the remote message;
likes-count, me/likes, me/playlists, playlist creation, add-song-to-
playlist, signup, resend-verification and login return 400 with the
remote message; the toggle-like handler maps any song-query error to 404
with the fixed message "Song not found" (discarding the remote message)
and maps a like-query error whose code is not PGRST116 to 500 with the
remote message, while its insert, delete and count results are not
error-checked in the source at all (src/server.js lines 289-304). -/
theorem c2_remote_failure_status_mapping (e e2 : SupabaseError) (f : UploadedFile)
    (now : Nat) (purl : String → String) (db : DB) (uid : String) (sid : Nat)
    (song : Song) (lq : QueryResult (String × Nat)) :
    getSongsHandler (.err e) = ⟨500, .errMsg e.message⟩ ∧
    (uploadAudio (some f) now (some e) purl).resp = ⟨500, .errMsg e.message⟩ ∧
    (uploadReelAudio (some f) now (some e) purl).resp = ⟨500, .errMsg e.message⟩ ∧
    (uploadCover (some f) now (some e) purl).resp = ⟨500, .errMsg e.message⟩ ∧
    (createSong ⟨some "t", some "a", none, none, some "au", some "cu", none, none⟩
        (some e) db).resp = ⟨500, .errMsg e.message⟩ ∧
    logoutHandler (some "Bearer tok") (some e) = ⟨500, .errMsg e.message⟩ ∧
    likesCountHandler (.err e) = ⟨400, .errMsg e.message⟩ ∧
    meLikesHandler (.err e) = ⟨400, .errMsg e.message⟩ ∧
    mePlaylistsHandler (.err e) = ⟨400, .errMsg e.message⟩ ∧
    createPlaylist (some "p") (.err e) = (⟨400, .errMsg e.message⟩, true) ∧
    addPlaylistSong (.err e) = ⟨400, .errMsg e.message⟩ ∧
    signupHandler (some "a@x.com") (some "pw") none (.err e) =
      (⟨400, .errMsg e.message⟩, true) ∧
    resendVerificationHandler (some "a@x.com") (some e) =
      (⟨400, .errMsg e.message⟩, true) ∧
    loginHandler (some "a@x.com") (some "pw") (.err e) =
      (⟨400, .errMsg e.message⟩, true) ∧
    toggleLikeCore uid sid (.err e2) lq db = (⟨404, .errMsg "Song not found"⟩, db) ∧
    toggleLikeCore uid sid (.ok song) (.err ⟨e.message, "PGRST999"⟩) db =
      (⟨500, .errMsg e.message⟩, db) :=
  ⟨rfl, rfl, rfl, rfl, rfl, rfl, rfl, rfl, rfl, rfl, rfl, rfl, rfl, rfl, rfl, by
    simp [toggleLikeCore]⟩

/-- C5: a POST /songs request missing any of title, artist, audio_url,
cover_url gets a 400 and inserts nothing; a request supplying all four
(truthy) whose remote insert succeeds inserts exactly one row and gets a
201 containing the inserted row with its generated id. -/
theorem c5_create_song_validation (b : SongBody) (ie : Option SupabaseError) (db : DB) :
    ((b.title = none ∨ b.artist = none ∨ b.audio_url = none ∨ b.cover_url = none) →
      createSong b ie db =
        ⟨⟨400, .errMsg "Title, Artist, audio_url, and cover_url are required"⟩, db, false⟩) ∧
    ((falsy b.title = false ∧ falsy b.artist = false ∧ falsy b.audio_url = false ∧
        falsy b.cover_url = false) → ie = none →
      createSong b ie db =
        ⟨⟨201, .songCreated "Song uploaded successfully"
            ⟨db.nextSongId, b.title.getD "", b.artist.getD "", b.album, b.genre,
              b.audio_url.getD "", b.cover_url.getD "", b.reel_audio_url, b.lyrics⟩⟩,
          ⟨db.songs ++
            [⟨db.nextSongId, b.title.getD "", b.artist.getD "", b.album, b.genre,
              b.audio_url.getD "", b.cover_url.getD "", b.reel_audio_url, b.lyrics⟩],
            db.nextSongId + 1, db.likes⟩, true⟩) := by
  constructor
  · intro hmiss
    rcases hmiss with hx | hx | hx | hx <;> simp [createSong, hx, falsy]
  · intro hall hie
    subst hie
    simp [createSong, hall.1, hall.2.1, hall.2.2.1, hall.2.2.2]

/-- Witness for C5: a request missing title, and a complete request, both
against a concrete empty database. -/
theorem c5_witness :
    (createSong ⟨none, some "a", none, none, some "au", some "cu", none, none⟩ none ⟨[], 0, ∅⟩ =
      ⟨⟨400, .errMsg "Title, Artist, audio_url, and cover_url are required"⟩,
        ⟨[], 0, ∅⟩, false⟩) ∧
    (createSong ⟨some "t", some "a", none, none, some "au", some "cu", none, none⟩ none
        ⟨[], 0, ∅⟩ =
      ⟨⟨201, .songCreated "Song uploaded successfully"
          ⟨0, "t", "a", none, none, "au", "cu", none, none⟩⟩,
        ⟨[⟨0, "t", "a", none, none, "au", "cu", none, none⟩], 1, ∅⟩, true⟩) := by
  constructor
  · exact (c5_create_song_validation
      ⟨none, some "a", none, none, some "au", some "cu", none, none⟩ none ⟨[], 0, ∅⟩).1
      (Or.inl rfl)
  · exact (c5_create_song_validation
      ⟨some "t", some "a", none, none, some "au", some "cu", none, none⟩ none ⟨[], 0, ∅⟩).2
      ⟨rfl, rfl, rfl, rfl⟩ rfl

/-- C7: each upload endpoint answers a request with no file by a 400 whose
message names the missing field, making no storage call; with a file
present and a successful upload, the storage key is the stem, an
underscore, the epoch milliseconds and the original extension, and the
response carries the retrieved public URL under the endpoint's url key. -/
theorem c7_upload_handlers (f : UploadedFile) (now : Nat)
    (ue : Option SupabaseError) (purl : String → String) :
    (uploadAudio none now ue purl = ⟨⟨400, .errMsg "No audio file uploaded"⟩, false, none⟩) ∧
    (uploadReelAudio none now ue purl =
      ⟨⟨400, .errMsg "No audio file uploaded"⟩, false, none⟩) ∧
    (uploadCover none now ue purl = ⟨⟨400, .errMsg "No cover file uploaded"⟩, false, none⟩) ∧
    ("No audio file uploaded" = "No " ++ "audio" ++ " file uploaded") ∧
    ("No cover file uploaded" = "No " ++ "cover" ++ " file uploaded") ∧
    (uploadAudio (some f) now none purl =
      ⟨⟨200, .uploadUrl "audio_url"
          (purl ("song" ++ "_" ++ toString now ++ extname f.originalname))⟩,
        true, some ("song" ++ "_" ++ toString now ++ extname f.originalname)⟩) ∧
    (uploadReelAudio (some f) now none purl =
      ⟨⟨200, .uploadUrl "audio_url"
          (purl ("song" ++ "_" ++ toString now ++ extname f.originalname))⟩,
        true, some ("song" ++ "_" ++ toString now ++ extname f.originalname)⟩) ∧
    (uploadCover (some f) now none purl =
      ⟨⟨200, .uploadUrl "cover_url"
          (purl ("cover" ++ "_" ++ toString now ++ extname f.originalname))⟩,
        true, some ("cover" ++ "_" ++ toString now ++ extname f.originalname)⟩) :=
  ⟨rfl, rfl, rfl, by decide, by decide, rfl, rfl, rfl⟩

/-- Descending-id comparison on songs is total. -/
instance : IsTotal Song (fun a b => b.id ≤ a.id) :=
  ⟨fun a b => Nat.le_total b.id a.id⟩

/-- Descending-id comparison on songs is transitive. -/
instance : IsTrans Song (fun a b => b.id ≤ a.id) :=
  ⟨fun _ _ _ hab hbc => Nat.le_trans hbc hab⟩

/-- C8: when the remote fetch succeeds, GET /songs returns the full songs
table (a permutation of it) as an array ordered strictly descending by id. -/
theorem c8_get_songs_sorted_desc (db : DB) (hnd : (db.songs.map Song.id).Nodup) :
    getSongsFromDB db = ⟨200, .songsList (orderByIdDesc db.songs)⟩ ∧
    List.Perm (orderByIdDesc db.songs) db.songs ∧
    (orderByIdDesc db.songs).Pairwise (fun a b => b.id < a.id) := by
  have hperm : List.Perm (orderByIdDesc db.songs) db.songs := by
    unfold orderByIdDesc
    exact List.perm_insertionSort (fun a b => b.id ≤ a.id) db.songs
  refine ⟨rfl, hperm, ?_⟩
  have hsor : (orderByIdDesc db.songs).Sorted (fun a b => b.id ≤ a.id) := by
    unfold orderByIdDesc
    exact List.sorted_insertionSort (fun a b => b.id ≤ a.id) db.songs
  have hnd2 : ((orderByIdDesc db.songs).map Song.id).Nodup :=
    ((hperm.map Song.id).nodup_iff).mpr hnd
  have hpw : (orderByIdDesc db.songs).Pairwise (fun a b => Song.id a ≠ Song.id b) :=
    List.pairwise_map.mp hnd2
  exact (hsor.and hpw).imp (fun h => lt_of_le_of_ne h.1 (Ne.symm h.2))

/-- Witness for C8 at a concrete two-song table with distinct ids. -/
theorem c8_witness :
    getSongsFromDB ⟨[⟨1, "t1", "a1", none, none, "u1", "c1", none, none⟩,
        ⟨2, "t2", "a2", none, none, "u2", "c2", none, none⟩], 3, ∅⟩ =
      ⟨200, .songsList (orderByIdDesc
        [⟨1, "t1", "a1", none, none, "u1", "c1", none, none⟩,
         ⟨2, "t2", "a2", none, none, "u2", "c2", none, none⟩])⟩ ∧
    List.Perm (orderByIdDesc [⟨1, "t1", "a1", none, none, "u1", "c1", none, none⟩,
        ⟨2, "t2", "a2", none, none, "u2", "c2", none, none⟩])
      [⟨1, "t1", "a1", none, none, "u1", "c1", none, none⟩,
       ⟨2, "t2", "a2", none, none, "u2", "c2", none, none⟩] ∧
    (orderByIdDesc [⟨1, "t1", "a1", none, none, "u1", "c1", none, none⟩,
        ⟨2, "t2", "a2", none, none, "u2", "c2", none, none⟩]).Pairwise
      (fun a b => b.id < a.id) :=
  c8_get_songs_sorted_desc
    ⟨[⟨1, "t1", "a1", none, none, "u1", "c1", none, none⟩,
      ⟨2, "t2", "a2", none, none, "u2", "c2", none, none⟩], 3, ∅⟩ (by decide)

/-- C10: required-field validation is by truthiness: for POST /songs,
POST /auth/signup, POST /auth/login and POST /playlists, a required field
equal to the empty string is rejected with 400 exactly as if it were
absent, with no remote call made. -/
theorem c10_truthiness_validation (b : SongBody) (ie : Option SupabaseError) (db : DB)
    (v w : Option String) (sr : QueryResult (Option User))
    (lr : QueryResult (Option Session × Option User)) (pr : QueryResult Playlist) :
    (createSong { b with title := some "" } ie db =
        ⟨⟨400, .errMsg "Title, Artist, audio_url, and cover_url are required"⟩, db, false⟩ ∧
      createSong { b with title := some "" } ie db =
        createSong { b with title := none } ie db) ∧
    (createSong { b with artist := some "" } ie db =
        ⟨⟨400, .errMsg "Title, Artist, audio_url, and cover_url are required"⟩, db, false⟩ ∧
      createSong { b with artist := some "" } ie db =
        createSong { b with artist := none } ie db) ∧
    (createSong { b with audio_url := some "" } ie db =
        ⟨⟨400, .errMsg "Title, Artist, audio_url, and cover_url are required"⟩, db, false⟩ ∧
      createSong { b with audio_url := some "" } ie db =
        createSong { b with audio_url := none } ie db) ∧
    (createSong { b with cover_url := some "" } ie db =
        ⟨⟨400, .errMsg "Title, Artist, audio_url, and cover_url are required"⟩, db, false⟩ ∧
      createSong { b with cover_url := some "" } ie db =
        createSong { b with cover_url := none } ie db) ∧
    (signupHandler (some "") v w sr = (⟨400, .errMsg "Email & password required"⟩, false) ∧
      signupHandler (some "") v w sr = signupHandler none v w sr) ∧
    (signupHandler v (some "") w sr = (⟨400, .errMsg "Email & password required"⟩, false) ∧
      signupHandler v (some "") w sr = signupHandler v none w sr) ∧
    (loginHandler (some "") v lr = (⟨400, .errMsg "Email & password required"⟩, false) ∧
      loginHandler (some "") v lr = loginHandler none v lr) ∧
    (loginHandler v (some "") lr = (⟨400, .errMsg "Email & password required"⟩, false) ∧
      loginHandler v (some "") lr = loginHandler v none lr) ∧
    (createPlaylist (some "") pr = (⟨400, .errMsg "Playlist name required"⟩, false) ∧
      createPlaylist (some "") pr = createPlaylist none pr) := by
  refine ⟨⟨?_, ?_⟩, ⟨?_, ?_⟩, ⟨?_, ?_⟩, ⟨?_, ?_⟩, ⟨?_, ?_⟩, ⟨?_, ?_⟩, ⟨?_, ?_⟩, ⟨?_, ?_⟩,
    ⟨?_, ?_⟩⟩ <;>
  simp [createSong, signupHandler, loginHandler, createPlaylist, falsy]

end Melodify
